import Mathlib

/-!
# Filter State & Address Synchronization Engine — verification

Shallow embedding of the userscript `google-search-filters.user.js`
(filter catalog, persistence settings, in-memory filter state, the
URL-synchronization functions and the custom-site validation), together
with proofs and refutations of the specification's claims.

Strings are modelled as `List Char`.  `localStorage` is modelled as an
association list from keys to values; the store effects of an operation
are recorded as an explicit list of `StoreOp`s in the order the source
performs them.
-/

namespace GSF

/-- JS strings, modelled as lists of characters. -/
abbrev Str := List Char

/-- Shorthand turning a Lean string literal into the model's string type. -/
def lit (s : String) : Str := s.toList

/-- JS whitespace (the characters matched by `\s` and trimmed by
`String.prototype.trim`); the ASCII part plus NBSP, which is all that can
occur in the claims. -/
def isWS (c : Char) : Bool :=
  c = ' ' || c = '\t' || c = '\n' || c = '\r' ||
  c = '\x0b' || c = '\x0c' || c = ' '

/-- The five filter categories of `currentFilters` / `filters`. -/
inductive FilterType
  | searchLang
  | interfaceLang
  | region
  | site
  | time
deriving DecidableEq, Repr

/-- The category name as it appears as a JS object key. -/
def ftName : FilterType → Str
  | .searchLang => lit "searchLang"
  | .interfaceLang => lit "interfaceLang"
  | .region => lit "region"
  | .site => lit "site"
  | .time => lit "time"

/-- Model of `filterType.charAt(0).toUpperCase() + filterType.slice(1)`. -/
def capitalizeFirst : Str → Str
  | [] => []
  | c :: rest => c.toUpper :: rest

/-- Model of `getStorageKey(filterType)` — the per-category value key. -/
def getStorageKey (ft : FilterType) : Str :=
  lit "googleSearch" ++ capitalizeFirst (ftName ft)

/-- Model of `getPersistStorageKey(filterType)` — the per-category persistence-flag key. -/
def getPersistStorageKey (ft : FilterType) : Str :=
  lit "googleSearchPersist" ++ capitalizeFirst (ftName ft)

/-- The default value of a category, as computed at several places in the
source: `(filterType === 'interfaceLang' || filterType === 'region') ?
'auto' : 'all'`. -/
def defaultValue (ft : FilterType) : Str :=
  if ft = .interfaceLang ∨ ft = .region then lit "auto" else lit "all"

/-- An entry of `filters.interfaceLang`: display name and the `hl` code
(`googleLang`, `null` for auto-detect). -/
structure InterfaceOpt where
  name : Str
  googleLang : Option Str
deriving DecidableEq, Repr

/-- An entry of `filters.region`: display name and the `gl` code
(`googleRegion`, `null` for auto-detect). -/
structure RegionOpt where
  name : Str
  googleRegion : Option Str
deriving DecidableEq, Repr

/-- An entry of `filters.time`: display name and the `tbs` token. -/
structure TimeOpt where
  name : Str
  param : Str
deriving DecidableEq, Repr

/-- An entry of `filters.site`. -/
structure SiteData where
  name : Str
  short : Str
  query : Str
  domain : Str
  icon : Str
deriving DecidableEq, Repr, Inhabited

/-- Model of `filters.searchLang` (key, display name). -/
def searchLangFilters : List (Str × Str) :=
  [(lit "all", lit "All Languages"),
   (lit "tr", lit "Turkish Only"),
   (lit "en", lit "English Only")]

/-- Model of `filters.interfaceLang`. -/
def interfaceLangFilters : List (Str × InterfaceOpt) :=
  [(lit "auto", ⟨lit "Auto Detect", none⟩),
   (lit "tr", ⟨lit "Turkish UI", some (lit "tr")⟩),
   (lit "en", ⟨lit "English UI", some (lit "en")⟩)]

/-- Model of `filters.region`. -/
def regionFilters : List (Str × RegionOpt) :=
  [(lit "auto", ⟨lit "Auto Detect", none⟩),
   (lit "tr", ⟨lit "Turkey", some (lit "TR")⟩),
   (lit "us", ⟨lit "United States", some (lit "US")⟩)]

/-- Model of `filters.time`. -/
def timeFilters : List (Str × TimeOpt) :=
  [(lit "all", ⟨lit "All Time", lit ""⟩),
   (lit "day", ⟨lit "Today", lit "d"⟩),
   (lit "week", ⟨lit "This Week", lit "w"⟩),
   (lit "month", ⟨lit "This Month", lit "m"⟩),
   (lit "year", ⟨lit "This Year", lit "y"⟩),
   (lit "2year", ⟨lit "Last 2 Years", lit "custom:2y"⟩)]

/-- The built-in part of `filters.site`. -/
def builtinSites : List (Str × SiteData) :=
  [(lit "reddit", ⟨lit "Reddit", lit "REDDIT", lit "site:reddit.com",
      lit "reddit.com", lit "https://reddit.com/favicon.ico"⟩),
   (lit "github", ⟨lit "GitHub", lit "GITHUB", lit "site:github.com",
      lit "github.com", lit "https://github.com/favicon.ico"⟩),
   (lit "eksisozluk", ⟨lit "Ekşi Sözlük", lit "EKŞİ", lit "site:eksisozluk.com",
      lit "eksisozluk.com", lit "https://eksisozluk.com/favicon.ico"⟩),
   (lit "donanimhaber", ⟨lit "DONANIMHABER", lit "DH", lit "site:forum.donanimhaber.com",
      lit "forum.donanimhaber.com", lit "https://donanimhaber.com/favicon.ico"⟩)]

/-- Model of `DEFAULT_SITES`. -/
def DEFAULT_SITES : List Str :=
  [lit "reddit", lit "github", lit "eksisozluk", lit "donanimhaber"]

/-- The in-memory `currentFilters` object. -/
structure FilterState where
  searchLang : Str
  interfaceLang : Str
  region : Str
  site : Str
  time : Str
deriving DecidableEq, Repr

/-- Model of `currentFilters[filterType]`. -/
def FilterState.get (st : FilterState) : FilterType → Str
  | .searchLang => st.searchLang
  | .interfaceLang => st.interfaceLang
  | .region => st.region
  | .site => st.site
  | .time => st.time

/-- Model of `currentFilters[filterType] = v`. -/
def FilterState.set (st : FilterState) : FilterType → Str → FilterState
  | .searchLang, v => { st with searchLang := v }
  | .interfaceLang, v => { st with interfaceLang := v }
  | .region, v => { st with region := v }
  | .site, v => { st with site := v }
  | .time, v => { st with time := v }

/-- The all-default filter state. -/
def defaultState : FilterState :=
  ⟨lit "all", lit "auto", lit "auto", lit "all", lit "all"⟩

/-- The `persistenceSettings` object. -/
structure PersistSettings where
  searchLang : Bool
  interfaceLang : Bool
  region : Bool
  site : Bool
  time : Bool
deriving DecidableEq, Repr

/-- Model of `persistenceSettings[filterType]`. -/
def PersistSettings.get (ps : PersistSettings) : FilterType → Bool
  | .searchLang => ps.searchLang
  | .interfaceLang => ps.interfaceLang
  | .region => ps.region
  | .site => ps.site
  | .time => ps.time

/-- Model of `persistenceSettings[filterType] = b`. -/
def PersistSettings.set (ps : PersistSettings) : FilterType → Bool → PersistSettings
  | .searchLang, b => { ps with searchLang := b }
  | .interfaceLang, b => { ps with interfaceLang := b }
  | .region, b => { ps with region := b }
  | .site, b => { ps with site := b }
  | .time, b => { ps with time := b }

/-- Model of `localStorage`, modelled as an association list. -/
abbrev Store := List (Str × Str)

/-- Model of `localStorage.getItem(key)` (`none` = JS `null`). -/
def Store.getItem (store : Store) (key : Str) : Option Str :=
  store.lookup key

/-- A single `localStorage` effect performed by an operation, in source
order.  `saveSites` stands for `saveCustomSites()`, which serializes the
non-built-in entries of `filters.site` under `googleSearchCustomSites`. -/
inductive StoreOp
  | set (key value : Str)
  | remove (key : Str)
  | saveSites (sites : List (Str × SiteData))
deriving DecidableEq, Repr

/-- JS `Boolean.prototype.toString`. -/
def boolStr (b : Bool) : Str := if b then lit "true" else lit "false"

/-- Model of `togglePersistence(filterType)` (lines 1623–1634 of the source; the
DOM/toast updates that follow carry no state).  Returns the new
persistence settings, the new in-memory state and the store effects. -/
def togglePersistence (ps : PersistSettings) (st : FilterState) (ft : FilterType) :
    PersistSettings × FilterState × List StoreOp :=
  let ps' := ps.set ft (! ps.get ft)
  let flagOp := StoreOp.set (getPersistStorageKey ft) (boolStr (ps'.get ft))
  if ps'.get ft = false then
    (ps', st.set ft (defaultValue ft), [flagOp, StoreOp.remove (getStorageKey ft)])
  else
    (ps', st, [flagOp, StoreOp.set (getStorageKey ft) (st.get ft)])

/-! ## String utilities used by the engine -/

/-- Model of `String.prototype.trim` from the left. -/
def trimL (s : Str) : Str := s.dropWhile isWS

/-- Model of `String.prototype.trim` from the right. -/
def trimR (s : Str) : Str := (s.reverse.dropWhile isWS).reverse

/-- Model of `String.prototype.trim`. -/
def trimStr (s : Str) : Str := trimR (trimL s)

theorem length_dropWhile_le (p : Char → Bool) (l : Str) :
    (l.dropWhile p).length ≤ l.length := by
  induction l with
  | nil => simp
  | cons c t ih => by_cases h : p c <;> simp [List.dropWhile, h] <;> omega

/-- Model of `str.replace(/\s+/g, ' ')`: collapse every whitespace run to one space. -/
def collapseWS : Str → Str
  | [] => []
  | c :: t =>
    if isWS c then ' ' :: collapseWS (t.dropWhile isWS) else c :: collapseWS t
termination_by s => s.length
decreasing_by
  all_goals simp only [List.length_cons]
  · exact Nat.lt_succ_of_le (length_dropWhile_le _ _)
  · omega

/-- One attempt of the pattern `\s*site:\S+` at the start of `s`: on success
the remainder after the match.  (`\s*` is greedy; backing off can never help
because the following literal starts with a non-whitespace character.
`\S+` is the longest run of non-whitespace after the literal.) -/
def siteTokenRest (s : Str) : Option Str :=
  if List.isPrefixOf (lit "site:") (s.dropWhile isWS) then
    if ((s.dropWhile isWS).drop 5).takeWhile (fun c => ¬ isWS c) = [] then none
    else some (((s.dropWhile isWS).drop 5).drop
      ((((s.dropWhile isWS).drop 5).takeWhile (fun c => ¬ isWS c)).length))
  else none

theorem siteTokenRest_length_lt {s r : Str} (h : siteTokenRest s = some r) :
    r.length < s.length := by
  unfold siteTokenRest at h
  split at h
  · split at h
    · exact absurd h (by simp)
    · rename_i hpre htok
      have h5 : 5 ≤ (s.dropWhile isWS).length := by
        rw [List.isPrefixOf_iff_prefix] at hpre
        have hlen := hpre.length_le
        have : (lit "site:").length = 5 := rfl
        omega
      have hd : (s.dropWhile isWS).length ≤ s.length := length_dropWhile_le ..
      have htl : 1 ≤ (((s.dropWhile isWS).drop 5).takeWhile (fun c => ¬ isWS c)).length := by
        rcases Nat.eq_zero_or_pos (((s.dropWhile isWS).drop 5).takeWhile
          (fun c => ¬ isWS c)).length with hz | hp
        · exact absurd (List.eq_nil_of_length_eq_zero hz) htok
        · exact hp
      have hr : r = ((s.dropWhile isWS).drop 5).drop
          (((s.dropWhile isWS).drop 5).takeWhile (fun c => ¬ isWS c)).length :=
        (Option.some_injective _ h).symm
      subst hr
      simp only [List.length_drop]
      omega
  · exact absurd h (by simp)

/-- Model of `searchQuery.replace(/\s*site:\S+/g, '')`: delete every embedded
site-restriction token (global, non-overlapping, leftmost-first). -/
def cleanSiteTokens : Str → Str
  | [] => []
  | c :: t =>
    match h : siteTokenRest (c :: t) with
    | some rest => cleanSiteTokens rest
    | none => c :: cleanSiteTokens t
termination_by s => s.length
decreasing_by
  · exact siteTokenRest_length_lt h
  · simp

/-- Model of `haystack.includes(needle)`. -/
def includes (hay needle : Str) : Bool := decide (needle <:+: hay)

/-- JS `str.replace(pat, rep)` with a string pattern: replace the first
occurrence only. -/
def replaceFirst (pat rep : Str) : Str → Str
  | [] => if List.isPrefixOf pat [] then rep else []
  | c :: t =>
    if List.isPrefixOf pat (c :: t) then rep ++ (c :: t).drop pat.length
    else c :: replaceFirst pat rep t

/-- JS `str.split(sep)` with a one-character separator. -/
def splitOnChar (sep : Char) : Str → List Str
  | [] => [[]]
  | c :: t =>
    if c = sep then [] :: splitOnChar sep t
    else match splitOnChar sep t with
      | [] => [[c]]
      | piece :: rest => (c :: piece) :: rest

/-! ## The page address

`Params` models the parts of the page address the engine reads or writes:
the five query parameters it owns (`none` = parameter absent), the path,
and the remaining query parameters, which the engine never touches. -/

structure Params where
  q : Option Str
  lr : Option Str
  tbs : Option Str
  hl : Option Str
  gl : Option Str
  path : Str
  others : List (Str × Str)
deriving DecidableEq, Repr

/-- Model of `searchParams.get(p) || ''`. -/
def getP (v : Option Str) : Str := v.getD []

/-! ## Dates

`new Date(y, m, d)` is modelled at local midnight as a civil day count
(no daylight-saving offsets; with the 1.8–2.2-year window a one-hour
offset can never change any comparison made by the engine). -/

/-- Days since 1970-01-01 of the civil date `(y, m, d)` with `m ∈ [1,12]`
(proleptic Gregorian; day counts outside `[1,31]` roll over linearly). -/
def daysFromCivil (y m d : Int) : Int :=
  let y' := y - (if m ≤ 2 then 1 else 0)
  let era := Int.fdiv y' 400
  let yoe := y' - era * 400
  let mp := Int.emod (m + 9) 12
  let doy := (153 * mp + 2) / 5 + d - 1
  let doe := yoe * 365 + yoe / 4 - yoe / 100 + doy
  era * 146097 + doe - 719468

/-- Civil date `(y, m, d)`, `m ∈ [1,12]`, of a day count. -/
def civilFromDays (z0 : Int) : Int × Int × Int :=
  let z := z0 + 719468
  let era := Int.fdiv z 146097
  let doe := z - era * 146097
  let yoe := (doe - doe / 1460 + doe / 36524 - doe / 146096) / 365
  let y := yoe + era * 400
  let doy := doe - (365 * yoe + yoe / 4 - yoe / 100)
  let mp := (5 * doy + 2) / 153
  let d := doy - (153 * mp + 2) / 5 + 1
  let m := mp + (if mp < 10 then 3 else -9)
  (y + (if m ≤ 2 then 1 else 0), m, d)

/-- ECMAScript `MakeDay(y, m, d)` as a day count (month `m` 0-based and
unbounded, day `d` unbounded). -/
def makeDay (y m d : Int) : Int :=
  let ym := y * 12 + m
  daysFromCivil (Int.fdiv ym 12) (Int.emod ym 12 + 1) 1 + (d - 1)

/-- Model of `new Date(y, m, d)` as a day count: the constructor maps year
arguments 0–99 to 1900–1999, then behaves as `MakeDay`. -/
def jsDateDays (y m d : Int) : Int :=
  makeDay (if 0 ≤ y ∧ y ≤ 99 then y + 1900 else y) m d

/-- A month/day/year triple as parsed out of a `cd_min`/`cd_max` field. -/
structure MDY where
  month : Nat
  day : Nat
  year : Nat
deriving DecidableEq, Repr

/-- Model of `parseDate`: `new Date(year, month - 1, day)` as a day count. -/
def mdyToDays (x : MDY) : Int :=
  jsDateDays (x.year : Int) ((x.month : Int) - 1) (x.day : Int)

/-- Model of `(endDate - startDate) / (365.25 * 24 * 60 * 60 * 1000)` as an exact
rational (the float computation never lands close enough to 1.8 or 2.2
for rounding to matter). -/
def yearsDiffQ (startDay endDay : Int) : ℚ :=
  (((endDay - startDay : Int) : ℚ) * 86400000) / 31557600000

/-- Model of `yearsDiff >= 1.8 && yearsDiff <= 2.2`, cross-multiplied into exact
integer arithmetic (`31557600000 > 0`, so the division can be cleared);
`inTwoYearRange_iff` below proves it equal to the rational form. -/
def inTwoYearRange (startDay endDay : Int) : Bool :=
  decide (9 * 31557600000 ≤ 5 * ((endDay - startDay) * 86400000)) &&
  decide (5 * ((endDay - startDay) * 86400000) ≤ 11 * 31557600000)

/-- Numeric value of an ASCII digit. -/
def digitVal (c : Char) : Nat := c.toNat - '0'.toNat

/-- Model of `\d{1,2}` followed by a literal `/` (two digits if the next character
is `/`, else one digit followed by `/`, exactly the regex backtracking). -/
def pMD : Str → Option (Nat × Str)
  | a :: b :: c :: rest =>
    if a.isDigit ∧ b.isDigit ∧ c = '/' then some (10 * digitVal a + digitVal b, rest)
    else if a.isDigit ∧ b = '/' then some (digitVal a, c :: rest)
    else none
  | [a, b] => if a.isDigit ∧ b = '/' then some (digitVal a, []) else none
  | _ => none

/-- Model of `\d{4}`. -/
def pYear : Str → Option (Nat × Str)
  | a :: b :: c :: d :: rest =>
    if a.isDigit ∧ b.isDigit ∧ c.isDigit ∧ d.isDigit then
      some (1000 * digitVal a + 100 * digitVal b + 10 * digitVal c + digitVal d, rest)
    else none
  | _ => none

/-- Consume a literal. -/
def dropLit (pat s : Str) : Option Str :=
  if List.isPrefixOf pat s then some (s.drop pat.length) else none

/-- The regex
`cd_min:(\d{1,2}\/\d{1,2}\/\d{4}),cd_max:(\d{1,2}\/\d{1,2}\/\d{4})`
anchored at the start of `s`. -/
def matchDatePairAt (s : Str) : Option (MDY × MDY) := do
  let s ← dropLit (lit "cd_min:") s
  let (m1, s) ← pMD s
  let (d1, s) ← pMD s
  let (y1, s) ← pYear s
  let s ← dropLit (lit ",cd_max:") s
  let (m2, s) ← pMD s
  let (d2, s) ← pMD s
  let (y2, _) ← pYear s
  pure (⟨m1, d1, y1⟩, ⟨m2, d2, y2⟩)

/-- Model of `tbs.match(...)`: the leftmost match of the date-pair regex. -/
def searchDatePair : Str → Option (MDY × MDY)
  | [] => none
  | c :: t =>
    match matchDatePairAt (c :: t) with
    | some r => some r
    | none => searchDatePair t

/-- Model of `syncCustomDateRange(tbs)` as a state transformer. -/
def syncCustomDateRange (st : FilterState) (tbs : Str) : FilterState :=
  match searchDatePair tbs with
  | none => st
  | some (d1, d2) =>
    if inTwoYearRange (mdyToDays d1) (mdyToDays d2) then st.set .time (lit "2year") else st

/-- Model of `([, data]) => data.googleLang === hl` for a nonempty `hl`. -/
def hlPred (hl : Str) (e : Str × InterfaceOpt) : Bool :=
  e.2.googleLang = some hl

/-- Model of `([, data]) => data.googleRegion === gl` for a nonempty `gl`. -/
def glPred (gl : Str) (e : Str × RegionOpt) : Bool :=
  e.2.googleRegion = some gl

/-- Model of `([, data]) => data?.query && query.includes(data.query)`. -/
def siteMatchPred (query : Str) (e : Str × SiteData) : Bool :=
  e.2.query ≠ [] && includes query e.2.query

/-- Model of `([, data]) => data?.param === timeParam`. -/
def timeParamPred (timeParam : Str) (e : Str × TimeOpt) : Bool :=
  e.2.param = timeParam

/-- The `if (hl)` block of `syncFiltersFromURL`: `hl` present selects the
entry whose `googleLang` equals it, falling back to `auto`. -/
def syncInterfaceFromHl (hl : Str) (st : FilterState) : FilterState :=
  if hl ≠ [] then
    st.set .interfaceLang
      (((interfaceLangFilters.find? (hlPred hl)).map (·.1)).getD (lit "auto"))
  else st

/-- The `if (gl)` block of `syncFiltersFromURL`. -/
def syncRegionFromGl (gl : Str) (st : FilterState) : FilterState :=
  if gl ≠ [] then
    st.set .region
      (((regionFilters.find? (glPred gl)).map (·.1)).getD (lit "auto"))
  else st

/-- The `// Sync site filters` block of `syncFiltersFromURL`: the first
catalog entry whose (nonempty) fragment is embedded in the query wins. -/
def syncSiteFromQuery (sites : List (Str × SiteData)) (query : Str)
    (st : FilterState) : FilterState :=
  match sites.find? (siteMatchPred query) with
  | some e => st.set .site e.1
  | none => st

/-- The `// Sync search language` block of `syncFiltersFromURL`. -/
def syncSearchLangFromLR (lr : Str) (st : FilterState) : FilterState :=
  if lr ≠ [] then
    if (searchLangFilters.lookup (replaceFirst (lit "lang_") [] lr)).isSome then
      st.set .searchLang (replaceFirst (lit "lang_") [] lr)
    else st
  else st

/-- The `// Sync time filters` block of `syncFiltersFromURL`. -/
def syncTimeFromTbs (tbs : Str) (st : FilterState) : FilterState :=
  if tbs ≠ [] then
    if List.isPrefixOf (lit "cdr:1,cd_min:") tbs then syncCustomDateRange st tbs
    else
      match timeFilters.find? (timeParamPred (replaceFirst (lit "qdr:") [] tbs)) with
      | some e => st.set .time e.1
      | none => st
  else st

/-- Model of `syncFiltersFromURL()`, block by block in source order.  `sites` is
the current `filters.site` (built-ins plus custom entries); `isSearch`
is `isSearchPage()`. -/
def syncFiltersFromURL (sites : List (Str × SiteData)) (isSearch : Bool)
    (p : Params) (st0 : FilterState) : FilterState :=
  let st2 := syncRegionFromGl (getP p.gl) (syncInterfaceFromHl (getP p.hl) st0)
  if ¬ isSearch then st2
  else
    syncTimeFromTbs (getP p.tbs)
      (syncSearchLangFromLR (getP p.lr) (syncSiteFromQuery sites (getP p.q) st2))

/-! ## Isolated interface-language / region navigations -/

/-- Model of `applyInterfaceLanguage(langCode)`: the navigation target and the
fixed 800 ms delay, or `none` when no navigation happens (empty code, a
code outside the catalog — whose `.name` access throws inside
`safeExecute` — or a catalog code without a `googleLang`). -/
def applyInterfaceLanguage (p : Params) (langCode : Str) : Option (Params × Nat) :=
  if langCode = [] then none
  else match interfaceLangFilters.lookup langCode with
    | none => none
    | some data =>
      if langCode = lit "auto" then some ({ p with hl := none }, 800)
      else match data.googleLang with
        | none => none
        | some g => some ({ p with hl := some g }, 800)

/-- Model of `applyRegionChange(regionCode)`, symmetrically on `gl`. -/
def applyRegionChange (p : Params) (regionCode : Str) : Option (Params × Nat) :=
  if regionCode = [] then none
  else match regionFilters.lookup regionCode with
    | none => none
    | some data =>
      if regionCode = lit "auto" then some ({ p with gl := none }, 800)
      else match data.googleRegion with
        | none => none
        | some g => some ({ p with gl := some g }, 800)

/-! ## Outbound apply and the consistency check -/

/-- Decimal rendering of an integer (`${n}` in a template literal). -/
def intToStr (i : Int) : Str := (toString i).toList

/-- Model of `formatSearchDate`: `"${month}/${day}/${year}"`. -/
def formatSearchDate (month day year : Int) : Str :=
  intToStr month ++ lit "/" ++ intToStr day ++ lit "/" ++ intToStr year

/-- Model of `createTimeFilterValue(timeParam)`; `today` is `new Date()` as a day
count.  `twoYearsAgo` is the same date with `setFullYear(year - 2)`. -/
def createTimeFilterValue (today : Int) (timeParam : Str) : Str :=
  if List.isPrefixOf (lit "custom:") timeParam ∧
      (splitOnChar ':' timeParam).getD 1 [] = lit "2y" then
    let c := civilFromDays today
    let p := civilFromDays (makeDay (c.1 - 2) (c.2.1 - 1) c.2.2)
    lit "cdr:1,cd_min:" ++ formatSearchDate p.2.1 p.2.2 p.1 ++
      lit ",cd_max:" ++ formatSearchDate c.2.1 c.2.2 c.1
  else lit "qdr:" ++ timeParam

/-- Model of `applyFilters()`: the navigation target built from the current address
and the in-memory state; `none` models the `TypeError` thrown when
`currentFilters.site` (resp. `.time`) is not a key of the catalog. -/
def applyFilters (sites : List (Str × SiteData)) (today : Int) (p : Params)
    (st : FilterState) : Option Params := do
  let searchQuery := getP p.q
  let cleanQuery := trimStr (collapseWS (cleanSiteTokens searchQuery))
  let q' ←
    if st.site ≠ lit "all" then
      match sites.lookup st.site with
      | some data => some (trimStr (cleanQuery ++ ' ' :: data.query))
      | none => none
    else some cleanQuery
  let p1 := { p with q := some q' }
  let p2 := if st.searchLang ≠ lit "all" then
      { p1 with lr := some (lit "lang_" ++ st.searchLang) }
    else { p1 with lr := none }
  let p3 ←
    if st.time ≠ lit "all" then
      match timeFilters.lookup st.time with
      | some data => some { p2 with tbs := some (createTimeFilterValue today data.param) }
      | none => none
    else some { p2 with tbs := none }
  let p4 := if st.interfaceLang ≠ lit "auto" then
      match interfaceLangFilters.lookup st.interfaceLang with
      | some data =>
        match data.googleLang with
        | some g => { p3 with hl := some g }
        | none => p3
      | none => p3
    else { p3 with hl := none }
  let p5 := if st.region ≠ lit "auto" then
      match regionFilters.lookup st.region with
      | some data =>
        match data.googleRegion with
        | some g => { p4 with gl := some g }
        | none => p4
      | none => p4
    else { p4 with gl := none }
  pure p5

/-- The body of `checkCurrentFilters`'s time comparison, on the selected
entry's `param` and the address's `tbs`. -/
def timeOk (param tbs : Str) : Bool :=
  if List.isPrefixOf (lit "custom:") param then
    if (splitOnChar ':' param).getD 1 [] = lit "2y" then
      List.isPrefixOf (lit "cdr:1,cd_min:") tbs
    else true
  else decide (tbs = lit "qdr:" ++ param)

/-- Model of `checkCurrentFilters(url)`: the consistency oracle; `none` models the
`TypeError` on a site/time selection outside the catalog. -/
def checkCurrentFilters (sites : List (Str × SiteData)) (p : Params)
    (st : FilterState) : Option Bool := do
  let query := getP p.q
  let lr := getP p.lr
  let tbs := getP p.tbs
  let hl := getP p.hl
  let gl := getP p.gl
  let siteOk ←
    if st.site ≠ lit "all" then
      match sites.lookup st.site with
      | some data => some (includes query data.query)
      | none => none
    else some true
  if siteOk = false then pure false
  else if st.searchLang ≠ lit "all" ∧ lr ≠ lit "lang_" ++ st.searchLang then pure false
  else do
    let timeOkV ←
      if st.time ≠ lit "all" then
        match timeFilters.lookup st.time with
        | some data => some (timeOk data.param tbs)
        | none => none
      else some true
    if timeOkV = false then pure false
    else
      let hlOk := if st.interfaceLang ≠ lit "auto" then
          match interfaceLangFilters.lookup st.interfaceLang with
          | some data =>
            match data.googleLang with
            | some g => decide (hl = g)
            | none => true
          | none => true
        else decide (hl = [])
      if hlOk = false then pure false
      else
        let glOk := if st.region ≠ lit "auto" then
            match regionFilters.lookup st.region with
            | some data =>
              match data.googleRegion with
              | some g => decide (gl = g)
              | none => true
            | none => true
          else decide (gl = [])
        pure glOk

/-! ## Selecting a filter -/

/-- Does `filters[filterType][value]` exist? -/
def catalogHas (sites : List (Str × SiteData)) : FilterType → Str → Bool
  | .searchLang, v => (searchLangFilters.lookup v).isSome
  | .interfaceLang, v => (interfaceLangFilters.lookup v).isSome
  | .region, v => (regionFilters.lookup v).isSome
  | .site, v => (sites.lookup v).isSome
  | .time, v => (timeFilters.lookup v).isSome

/-- Everything observable about one `selectFilter` call: the in-memory
state afterwards, the store effects, the isolated hl/gl navigation (for
the interface-language/region branches), whether `applyFilters` was
scheduled, and whether the final `filters[filterType][value].name` lookup
threw. -/
structure SelectOut where
  state : FilterState
  ops : List StoreOp
  nav : Option (Params × Nat)
  scheduledApply : Bool
  threw : Bool
deriving DecidableEq, Repr

/-- Model of `selectFilter(filterType, value)` (the DOM/toast work carries no
state). -/
def selectFilter (sites : List (Str × SiteData)) (ps : PersistSettings)
    (st : FilterState) (ft : FilterType) (value : Str) (isSearch : Bool)
    (p : Params) : SelectOut :=
  if st.get ft = value then ⟨st, [], none, false, false⟩
  else
    let st' := st.set ft value
    let ops := if ps.get ft then [StoreOp.set (getStorageKey ft) value] else []
    match ft with
    | .interfaceLang => ⟨st', ops, applyInterfaceLanguage p value, false, false⟩
    | .region => ⟨st', ops, applyRegionChange p value, false, false⟩
    | ft => ⟨st', ops, none, isSearch, ! catalogHas sites ft value⟩

/-! ## Startup: persistence settings and the initial state -/

/-- The initialization of `persistenceSettings` (lines 243–249). -/
def loadPersistSettings (store : Store) : PersistSettings :=
  ⟨decide (store.getItem (lit "googleSearchPersistSearchLang") ≠ some (lit "false")),
   decide (store.getItem (lit "googleSearchPersistInterfaceLang") ≠ some (lit "false")),
   decide (store.getItem (lit "googleSearchPersistRegion") = some (lit "true")),
   decide (store.getItem (lit "googleSearchPersistSite") = some (lit "true")),
   decide (store.getItem (lit "googleSearchPersistTime") = some (lit "true"))⟩

/-- Model of `localStorage.getItem(key) || dflt` (`null` and `''` are falsy). -/
def getItemOr (store : Store) (key dflt : Str) : Str :=
  match store.getItem key with
  | none => dflt
  | some v => if v = [] then dflt else v

/-- The initialization of `currentFilters` (lines 253–259). -/
def loadInitial (ps : PersistSettings) (store : Store) : FilterState :=
  ⟨if ps.searchLang then getItemOr store (getStorageKey .searchLang) (lit "all") else lit "all",
   if ps.interfaceLang then getItemOr store (getStorageKey .interfaceLang) (lit "auto") else lit "auto",
   if ps.region then getItemOr store (getStorageKey .region) (lit "auto") else lit "auto",
   if ps.site then getItemOr store (getStorageKey .site) (lit "all") else lit "all",
   if ps.time then getItemOr store (getStorageKey .time) (lit "all") else lit "all"⟩

/-! ## Custom-site validation, addition and removal -/

/-- One character of `sanitizeHTML` (text node → `innerHTML`): the
characters the HTML serializer rewrites. -/
def escapeHTMLChar (c : Char) : Str :=
  if c = '&' then lit "&amp;"
  else if c = '<' then lit "&lt;"
  else if c = '>' then lit "&gt;"
  else if c = ' ' then lit "&nbsp;"
  else [c]

/-- Model of `sanitizeHTML(str)` (returns `''` on a blank input via the
`isValidNonEmptyString` guard). -/
def sanitizeHTML (s : Str) : Str :=
  if trimStr s = [] then [] else s.flatMap escapeHTMLChar

/-- Model of `url.replace(/^https?:\/\//, '')`. -/
def stripScheme (u : Str) : Str :=
  if List.isPrefixOf (lit "https://") u then u.drop 8
  else if List.isPrefixOf (lit "http://") u then u.drop 7
  else u

/-- Model of `cleanURLDomain(url)`: strip an optional scheme, cut at the first `/`,
trim.  (The model assumes the input contains no newline, where the JS
`.`-excludes-newline subtlety could differ; every input reaching this
function in the claims is newline-free.) -/
def cleanURLDomain (url : Str) : Str :=
  if trimStr url = [] then []
  else trimStr ((stripScheme url).takeWhile (· ≠ '/'))

/-- The character class `[a-zA-Z0-9.-]`. -/
def isHostChar (c : Char) : Bool := c.isAlpha || c.isDigit || c = '.' || c = '-'

/-- Model of `URL_VALIDATION_REGEX = /^[a-zA-Z0-9.-]+\.[a-zA-Z]{2,}$/` as a test:
a match must split the string at its last `.`, with a nonempty run of
host characters before it and at least two letters after it (an earlier
`.` would leave a later `.` inside the letters-only tail). -/
def urlRegexTest (s : Str) : Bool :=
  let tldRev := s.reverse.takeWhile (· ≠ '.')
  decide (tldRev.length < s.length) &&
  decide (2 ≤ tldRev.length) && tldRev.all (·.isAlpha) &&
  decide (1 ≤ s.length - tldRev.length - 1) &&
  (s.take (s.length - tldRev.length - 1)).all isHostChar

/-- Model of `isValidURL(url)`. -/
def isValidURL (url : Str) : Bool :=
  if trimStr url = [] then false
  else decide (cleanURLDomain url ≠ []) && urlRegexTest (cleanURLDomain url)

/-- Model of `cleanUrl.replace(/\./g, '_').replace(/[^a-zA-Z0-9_]/g, '')`. -/
def deriveSiteKey (cleanUrl : Str) : Str :=
  (cleanUrl.map (fun c => if c = '.' then '_' else c)).filter
    (fun c => c.isAlpha || c.isDigit || c = '_')

/-- How one `addCustomSite()` run ended.  `cancelled` covers the silent
returns (empty/blank name prompt, blank URL prompt). -/
inductive AddSiteOutcome where
  | maxReached
  | cancelled
  | tooLong
  | invalidChars
  | invalidURL
  | duplicate
  | added (key : Str)
deriving DecidableEq, Repr

/-- Model of `addCustomSite()` with the two prompt inputs made explicit: the
outcome, the resulting `filters.site`, and the store effects. -/
def addCustomSite (sites : List (Str × SiteData)) (nameInput urlInput : Str) :
    AddSiteOutcome × List (Str × SiteData) × List StoreOp :=
  if 50 ≤ sites.length - DEFAULT_SITES.length then (.maxReached, sites, [])
  else if nameInput = [] ∨ trimStr nameInput = [] then (.cancelled, sites, [])
  else
    let trimmedName := trimStr nameInput
    if 20 < trimmedName.length then (.tooLong, sites, [])
    else
      let sanitizedName := sanitizeHTML trimmedName
      if sanitizedName ≠ trimmedName then (.invalidChars, sites, [])
      else if trimStr urlInput = [] then (.cancelled, sites, [])
      else
        let cleanUrl := cleanURLDomain urlInput
        if ¬ isValidURL urlInput then (.invalidURL, sites, [])
        else
          let siteKey := deriveSiteKey cleanUrl
          if (sites.lookup siteKey).isSome then (.duplicate, sites, [])
          else
            let siteData : SiteData :=
              ⟨sanitizedName, (sanitizedName.map Char.toUpper).take 12,
               lit "site:" ++ cleanUrl, cleanUrl,
               lit "https://" ++ cleanUrl ++ lit "/favicon.ico"⟩
            let sites' := sites ++ [(siteKey, siteData)]
            (.added siteKey, sites', [StoreOp.saveSites sites'])

/-- Everything observable about one `removeCustomSite` call. -/
structure RemoveOut where
  sites : List (Str × SiteData)
  state : FilterState
  ops : List StoreOp
  removed : Bool
deriving DecidableEq, Repr

/-- Model of `removeCustomSite(siteKey)`; `confirmed` is the `confirm(...)` answer. -/
def removeCustomSite (sites : List (Str × SiteData)) (ps : PersistSettings)
    (st : FilterState) (siteKey : Str) (confirmed : Bool) : RemoveOut :=
  if siteKey = [] then ⟨sites, st, [], false⟩
  else match sites.lookup siteKey with
    | none => ⟨sites, st, [], false⟩
    | some _ =>
      if siteKey ∈ DEFAULT_SITES then ⟨sites, st, [], false⟩
      else if ¬ confirmed then ⟨sites, st, [], false⟩
      else
        let sites' := sites.filter (fun e => e.1 ≠ siteKey)
        if st.site = siteKey then
          ⟨sites', st.set .site (lit "all"),
           (if ps.site then [StoreOp.set (getStorageKey .site) (lit "all")] else []) ++
             [StoreOp.saveSites sites'], true⟩
        else ⟨sites', st, [StoreOp.saveSites sites'], true⟩

/-! ## Shared helper lemmas and example inputs -/

/-- An address with no query parameters. -/
def noParams : Params := ⟨none, none, none, none, none, lit "/search", []⟩

/-- Every persistence flag on. -/
def psAllOn : PersistSettings := ⟨true, true, true, true, true⟩

theorem persistSettings_get_set (ps : PersistSettings) (ft : FilterType) (b : Bool) :
    (ps.set ft b).get ft = b := by
  cases ft <;> rfl

theorem filterState_get_set (st : FilterState) (ft : FilterType) (v : Str) :
    (st.set ft v).get ft = v := by
  cases ft <;> rfl

theorem inTwoYearRange_iff (s e : Int) :
    inTwoYearRange s e = true ↔
      ((9 : ℚ) / 5 ≤ yearsDiffQ s e ∧ yearsDiffQ s e ≤ (11 : ℚ) / 5) := by
  unfold inTwoYearRange yearsDiffQ
  rw [Bool.and_eq_true, decide_eq_true_eq, decide_eq_true_eq]
  have e1 : (9 : ℚ) / 5 ≤ ((e - s : Int) : ℚ) * 86400000 / 31557600000 ↔
      (9 * 31557600000 : Int) ≤ 5 * ((e - s) * 86400000) := by
    rw [div_le_div_iff₀ (by norm_num) (by norm_num),
      show ((e - s : Int) : ℚ) * 86400000 * 5 = ((5 * ((e - s) * 86400000) : Int) : ℚ) by
        push_cast; ring,
      show (9 * 31557600000 : ℚ) = ((9 * 31557600000 : Int) : ℚ) by norm_num]
    exact Int.cast_le
  have e2 : ((e - s : Int) : ℚ) * 86400000 / 31557600000 ≤ (11 : ℚ) / 5 ↔
      (5 * ((e - s) * 86400000) : Int) ≤ 11 * 31557600000 := by
    rw [div_le_div_iff₀ (by norm_num) (by norm_num),
      show ((e - s : Int) : ℚ) * 86400000 * 5 = ((5 * ((e - s) * 86400000) : Int) : ℚ) by
        push_cast; ring,
      show (11 * 31557600000 : ℚ) = ((11 * 31557600000 : Int) : ℚ) by norm_num]
    exact Int.cast_le
  rw [e1, e2]

theorem selectFilter_state (sites : List (Str × SiteData)) (ps : PersistSettings)
    (st : FilterState) (ft : FilterType) (v : Str) (isSearch : Bool) (p : Params) :
    (selectFilter sites ps st ft v isSearch p).state =
      if st.get ft = v then st else st.set ft v := by
  by_cases h : st.get ft = v <;> cases ft <;> simp [selectFilter, h]

/-! ## C2 — persistence toggling -/

/-- C2 (counterexample): with site persistence enabled and `reddit`
selected, `togglePersistence('site')` does **not** leave the in-memory
selection unchanged — it resets it to the default `all`. -/
theorem C2_counterexample :
    (psAllOn.get .site = true) ∧
    (togglePersistence psAllOn
        ⟨lit "all", lit "auto", lit "auto", lit "reddit", lit "all"⟩ .site).2.1.site
      = lit "all" ∧
    lit "all" ≠ lit "reddit" := by
  decide

/-- C2 (amended): toggling enabled→disabled writes the new flag, removes
the category's persisted key **and resets the in-memory selection to the
category default**; toggling disabled→enabled writes the new flag and
persists the current in-memory selection, leaving the state unchanged. -/
theorem C2_togglePersistence (ps : PersistSettings) (st : FilterState) (ft : FilterType) :
    (ps.get ft = true →
      togglePersistence ps st ft =
        (ps.set ft false, st.set ft (defaultValue ft),
         [StoreOp.set (getPersistStorageKey ft) (lit "false"),
          StoreOp.remove (getStorageKey ft)])) ∧
    (ps.get ft = false →
      togglePersistence ps st ft =
        (ps.set ft true, st,
         [StoreOp.set (getPersistStorageKey ft) (lit "true"),
          StoreOp.set (getStorageKey ft) (st.get ft)])) := by
  constructor <;> intro h <;>
    simp [togglePersistence, persistSettings_get_set, boolStr, h]

/-- C2 witness: the amended behaviour at a concrete enabled→disabled toggle. -/
theorem C2_witness :
    togglePersistence psAllOn
        ⟨lit "all", lit "auto", lit "auto", lit "reddit", lit "all"⟩ .site =
      (psAllOn.set .site false,
       FilterState.set ⟨lit "all", lit "auto", lit "auto", lit "reddit", lit "all"⟩
         .site (defaultValue .site),
       [StoreOp.set (getPersistStorageKey .site) (lit "false"),
        StoreOp.remove (getStorageKey .site)]) :=
  (C2_togglePersistence _ _ _).1 (by decide)

/-! ## C3 — selecting an unknown code -/

/-- C3 (counterexample): selecting the unknown site code `bogus` is not
rejected: the in-memory state changes and a store write happens. -/
theorem C3_counterexample :
    catalogHas builtinSites .site (lit "bogus") = false ∧
    (selectFilter builtinSites psAllOn defaultState .site (lit "bogus") true noParams).state
      ≠ defaultState ∧
    (selectFilter builtinSites psAllOn defaultState .site (lit "bogus") true noParams).ops
      ≠ [] := by
  decide

/-- C3 (amended): selecting an unknown `(category, code)` pair is **not**
rejected: the in-memory value is set to the unknown code and, when the
category's persistence flag is on, the code is written to the store; for
the searchLang/site/time categories the subsequent display-name lookup
then throws — after the state change. -/
theorem C3_selectFilter_unknown (sites : List (Str × SiteData)) (ps : PersistSettings)
    (st : FilterState) (ft : FilterType) (v : Str) (isSearch : Bool) (p : Params)
    (hcat : catalogHas sites ft v = false) (hne : st.get ft ≠ v) :
    (selectFilter sites ps st ft v isSearch p).state = st.set ft v ∧
    (selectFilter sites ps st ft v isSearch p).ops =
      (if ps.get ft then [StoreOp.set (getStorageKey ft) v] else []) ∧
    (ft = .searchLang ∨ ft = .site ∨ ft = .time →
      (selectFilter sites ps st ft v isSearch p).threw = true) := by
  cases ft <;> simp [selectFilter, hne, hcat]

/-- C3 witness: the amended behaviour at the concrete unknown code. -/
theorem C3_witness :
    (selectFilter builtinSites psAllOn defaultState .site (lit "bogus") true noParams).state
        = defaultState.set .site (lit "bogus") ∧
    (selectFilter builtinSites psAllOn defaultState .site (lit "bogus") true noParams).ops
        = (if psAllOn.get .site then [StoreOp.set (getStorageKey .site) (lit "bogus")] else []) ∧
    (FilterType.site = .searchLang ∨ FilterType.site = .site ∨ FilterType.site = .time →
      (selectFilter builtinSites psAllOn defaultState .site (lit "bogus") true noParams).threw
        = true) :=
  C3_selectFilter_unknown builtinSites psAllOn defaultState .site (lit "bogus") true noParams
    (by decide) (by decide)

/-! ## C4 — initial state construction -/

/-- A store holding a value outside the catalog for the result-language key. -/
def storeBadLang : Store := [(lit "googleSearchSearchLang", lit "xx")]

/-- C4 (counterexample): with the persistence flag on and `xx` — no key of
`filters.searchLang` — stored, the startup value is taken verbatim; it is
not validated against the catalog and does not fall back to the default,
so the FilterState invariant is violated. -/
theorem C4_counterexample :
    (loadInitial psAllOn storeBadLang).searchLang = lit "xx" ∧
    catalogHas builtinSites .searchLang (lit "xx") = false := by
  decide

/-- C4 (amended): per category, a false flag yields the default regardless
of the store; a true flag yields the stored value verbatim whenever it is
present and nonempty — with **no** validation against the catalog — and
the default only when the stored value is absent or empty. -/
theorem C4_loadInitial (ps : PersistSettings) (store : Store) (ft : FilterType) :
    (ps.get ft = false → (loadInitial ps store).get ft = defaultValue ft) ∧
    (ps.get ft = true →
      (loadInitial ps store).get ft = getItemOr store (getStorageKey ft) (defaultValue ft)) ∧
    (∀ v, ps.get ft = true → store.getItem (getStorageKey ft) = some v → v ≠ [] →
      (loadInitial ps store).get ft = v) := by
  refine ⟨?_, ?_, ?_⟩
  · intro h
    cases ft <;> simp_all [loadInitial, FilterState.get, PersistSettings.get, defaultValue]
  · intro h
    cases ft <;> simp_all [loadInitial, FilterState.get, PersistSettings.get, defaultValue]
  · intro v h hv hne
    cases ft <;>
      simp_all [loadInitial, FilterState.get, PersistSettings.get, getItemOr]

/-- C4 witness: the amended behaviour at the concrete corrupted store. -/
theorem C4_witness :
    (loadInitial psAllOn storeBadLang).get .searchLang = lit "xx" :=
  (C4_loadInitial psAllOn storeBadLang .searchLang).2.2 (lit "xx")
    (by decide) (by decide) (by decide)

/-! ## C8 — idempotence of select -/

/-- C8: selecting the already-current code is a no-op (state unchanged,
no store write, no navigation, nothing scheduled), and hence a second
identical `selectFilter` call right after a first one is always such a
no-op. -/
theorem C8_select_idempotent (sites : List (Str × SiteData)) (ps : PersistSettings)
    (st : FilterState) (ft : FilterType) (v : Str) (isSearch : Bool) (p : Params) :
    (st.get ft = v →
      selectFilter sites ps st ft v isSearch p = ⟨st, [], none, false, false⟩) ∧
    selectFilter sites ps (selectFilter sites ps st ft v isSearch p).state ft v isSearch p =
      ⟨(selectFilter sites ps st ft v isSearch p).state, [], none, false, false⟩ := by
  have hnoop : ∀ st' : FilterState, st'.get ft = v →
      selectFilter sites ps st' ft v isSearch p = ⟨st', [], none, false, false⟩ := by
    intro st' h
    cases ft <;> simp [selectFilter, h]
  refine ⟨hnoop st, ?_⟩
  apply hnoop
  rw [selectFilter_state]
  by_cases h : st.get ft = v
  · simpa [h] using h
  · simp [h, filterState_get_set]

/-- C8 witness: the no-op at a concrete already-selected code. -/
theorem C8_witness :
    selectFilter builtinSites psAllOn defaultState .site (lit "all") true noParams =
      ⟨defaultState, [], none, false, false⟩ :=
  (C8_select_idempotent builtinSites psAllOn defaultState .site (lit "all") true noParams).1
    (by decide)

/-! ## C9 — isolated hl/gl navigations -/

/-- C9: for every catalog interface-language (resp. region) code and every
starting address, the isolated navigation target differs from the current
address only in `hl` (resp. `gl`) — deleted for `auto`, set to the
catalog's external code otherwise — and is deferred by the fixed 800 ms
delay. -/
theorem C9_isolated_navigation (p : Params) :
    applyInterfaceLanguage p (lit "auto") = some ({ p with hl := none }, 800) ∧
    applyInterfaceLanguage p (lit "tr") = some ({ p with hl := some (lit "tr") }, 800) ∧
    applyInterfaceLanguage p (lit "en") = some ({ p with hl := some (lit "en") }, 800) ∧
    applyRegionChange p (lit "auto") = some ({ p with gl := none }, 800) ∧
    applyRegionChange p (lit "tr") = some ({ p with gl := some (lit "TR") }, 800) ∧
    applyRegionChange p (lit "us") = some ({ p with gl := some (lit "US") }, 800) := by
  refine ⟨rfl, rfl, rfl, rfl, rfl, rfl⟩

/-! ## C10 — removing the selected custom site -/

theorem lookup_filter_ne (sites : List (Str × SiteData)) (key : Str) :
    (sites.filter (fun e => e.1 ≠ key)).lookup key = none := by
  induction sites with
  | nil => rfl
  | cons e t ih =>
    obtain ⟨k, v⟩ := e
    by_cases h : k = key
    · simpa [List.filter_cons, h] using ih
    · have hb : (key == k) = false := by simp [Ne.symm h]
      rw [List.filter_cons, if_pos (by simpa using h), List.lookup, hb]
      exact ih

/-- C10: confirmed removal of a non-built-in catalog key that is the
current site selection resets the in-memory site filter to `all`, writes
`all` to the persisted site key exactly when the site persistence flag is
on, and removes the key from the catalog, so the selection no longer
refers to a removed entry. -/
theorem C10_removeCurrentSite (sites : List (Str × SiteData)) (ps : PersistSettings)
    (st : FilterState) (key : Str) (hne : key ≠ []) (hb : key ∉ DEFAULT_SITES)
    (hk : (sites.lookup key).isSome) (hcur : st.site = key) :
    (removeCustomSite sites ps st key true).state.site = lit "all" ∧
    (StoreOp.set (getStorageKey .site) (lit "all") ∈ (removeCustomSite sites ps st key true).ops
      ↔ ps.site = true) ∧
    (removeCustomSite sites ps st key true).sites.lookup key = none ∧
    (removeCustomSite sites ps st key true).removed = true := by
  subst hcur
  cases hlk : List.lookup st.site sites with
  | none => simp [Store.getItem, hlk] at hk
  | some d =>
    cases hps : ps.site <;>
      simp [removeCustomSite, hne, hlk, hb, hps, lookup_filter_ne, FilterState.set] <;>
      exact fun a b _ h' he => h' he.symm

/-- A catalog extended with one custom site, and a state selecting it. -/
def sitesWithTwitter : List (Str × SiteData) :=
  builtinSites ++ [(lit "twitter_com",
    ⟨lit "Twitter", lit "TWITTER", lit "site:twitter.com", lit "twitter.com",
     lit "https://twitter.com/favicon.ico"⟩)]

/-- C10 witness: the concrete removal of the selected custom site. -/
theorem C10_witness :
    (removeCustomSite sitesWithTwitter psAllOn
        ⟨lit "all", lit "auto", lit "auto", lit "twitter_com", lit "all"⟩
        (lit "twitter_com") true).state.site = lit "all" ∧
    (StoreOp.set (getStorageKey .site) (lit "all") ∈
        (removeCustomSite sitesWithTwitter psAllOn
          ⟨lit "all", lit "auto", lit "auto", lit "twitter_com", lit "all"⟩
          (lit "twitter_com") true).ops ↔ psAllOn.site = true) ∧
    (removeCustomSite sitesWithTwitter psAllOn
        ⟨lit "all", lit "auto", lit "auto", lit "twitter_com", lit "all"⟩
        (lit "twitter_com") true).sites.lookup (lit "twitter_com") = none ∧
    (removeCustomSite sitesWithTwitter psAllOn
        ⟨lit "all", lit "auto", lit "auto", lit "twitter_com", lit "all"⟩
        (lit "twitter_com") true).removed = true :=
  C10_removeCurrentSite sitesWithTwitter psAllOn
    ⟨lit "all", lit "auto", lit "auto", lit "twitter_com", lit "all"⟩
    (lit "twitter_com") (by decide) (by decide) (by decide) (by decide)

/-! ## C7 — custom-site validation -/

/-- C7: a 21-character name is rejected as too long; a domain that fails
the conservative host pattern is rejected; a name containing
markup-significant characters is rejected rather than silently stripped —
and in each rejection the catalog is unchanged and nothing is persisted. -/
theorem C7_validation_rejections :
    addCustomSite builtinSites (lit "aaaaaaaaaaaaaaaaaaaaa") (lit "x.com") =
      (.tooLong, builtinSites, []) ∧
    addCustomSite builtinSites (lit "ok") (lit "not a domain") =
      (.invalidURL, builtinSites, []) ∧
    addCustomSite builtinSites (lit "<b>x</b>") (lit "x.com") =
      (.invalidChars, builtinSites, []) := by
  refine ⟨by decide, by decide, by decide⟩

/-! ## C5 — inbound parse never forces defaults (hl/gl excepted) -/

theorem syncCustomDateRange_fields (s : FilterState) (tbs : Str) :
    (syncCustomDateRange s tbs).searchLang = s.searchLang ∧
    (syncCustomDateRange s tbs).interfaceLang = s.interfaceLang ∧
    (syncCustomDateRange s tbs).region = s.region ∧
    (syncCustomDateRange s tbs).site = s.site := by
  unfold syncCustomDateRange
  cases hsd : searchDatePair tbs with
  | none => exact ⟨rfl, rfl, rfl, rfl⟩
  | some r =>
    obtain ⟨d1, d2⟩ := r
    by_cases h : inTwoYearRange (mdyToDays d1) (mdyToDays d2) = true <;>
      simp [h, FilterState.set]

theorem syncInterfaceFromHl_fields (hl : Str) (st : FilterState) :
    (syncInterfaceFromHl hl st).searchLang = st.searchLang ∧
    (syncInterfaceFromHl hl st).region = st.region ∧
    (syncInterfaceFromHl hl st).site = st.site ∧
    (syncInterfaceFromHl hl st).time = st.time := by
  unfold syncInterfaceFromHl
  split <;> simp [FilterState.set]

theorem syncRegionFromGl_fields (gl : Str) (st : FilterState) :
    (syncRegionFromGl gl st).searchLang = st.searchLang ∧
    (syncRegionFromGl gl st).interfaceLang = st.interfaceLang ∧
    (syncRegionFromGl gl st).site = st.site ∧
    (syncRegionFromGl gl st).time = st.time := by
  unfold syncRegionFromGl
  split <;> simp [FilterState.set]

theorem syncSiteFromQuery_fields (sites : List (Str × SiteData)) (query : Str)
    (st : FilterState) :
    (syncSiteFromQuery sites query st).searchLang = st.searchLang ∧
    (syncSiteFromQuery sites query st).interfaceLang = st.interfaceLang ∧
    (syncSiteFromQuery sites query st).region = st.region ∧
    (syncSiteFromQuery sites query st).time = st.time := by
  unfold syncSiteFromQuery
  split <;> simp [FilterState.set]

theorem syncSearchLangFromLR_fields (lr : Str) (st : FilterState) :
    (syncSearchLangFromLR lr st).interfaceLang = st.interfaceLang ∧
    (syncSearchLangFromLR lr st).region = st.region ∧
    (syncSearchLangFromLR lr st).site = st.site ∧
    (syncSearchLangFromLR lr st).time = st.time := by
  unfold syncSearchLangFromLR
  split <;> [split <;> simp [FilterState.set]; simp]

theorem syncTimeFromTbs_fields (tbs : Str) (st : FilterState) :
    (syncTimeFromTbs tbs st).searchLang = st.searchLang ∧
    (syncTimeFromTbs tbs st).interfaceLang = st.interfaceLang ∧
    (syncTimeFromTbs tbs st).region = st.region ∧
    (syncTimeFromTbs tbs st).site = st.site := by
  unfold syncTimeFromTbs
  split
  · split
    · exact syncCustomDateRange_fields st tbs
    · split <;> simp [FilterState.set]
  · exact ⟨rfl, rfl, rfl, rfl⟩

theorem syncInterfaceFromHl_noop (st : FilterState) :
    syncInterfaceFromHl [] st = st := by
  simp [syncInterfaceFromHl]

theorem syncRegionFromGl_noop (st : FilterState) :
    syncRegionFromGl [] st = st := by
  simp [syncRegionFromGl]

theorem syncInterfaceFromHl_unrec (hl : Str) (st : FilterState) (h1 : hl ≠ [])
    (h2 : interfaceLangFilters.find? (hlPred hl) = none) :
    (syncInterfaceFromHl hl st).interfaceLang = lit "auto" := by
  simp [syncInterfaceFromHl, h1, h2, FilterState.set]

theorem syncRegionFromGl_unrec (gl : Str) (st : FilterState) (h1 : gl ≠ [])
    (h2 : regionFilters.find? (glPred gl) = none) :
    (syncRegionFromGl gl st).region = lit "auto" := by
  simp [syncRegionFromGl, h1, h2, FilterState.set]

theorem syncSiteFromQuery_noop (sites : List (Str × SiteData)) (query : Str)
    (st : FilterState)
    (h : sites.find? (siteMatchPred query) = none) :
    syncSiteFromQuery sites query st = st := by
  simp [syncSiteFromQuery, h]

theorem syncSearchLangFromLR_noop (lr : Str) (st : FilterState)
    (h : lr = [] ∨
      (searchLangFilters.lookup (replaceFirst (lit "lang_") [] lr)).isSome = false) :
    syncSearchLangFromLR lr st = st := by
  unfold syncSearchLangFromLR
  rcases h with h | h
  · simp [h]
  · simp [h]

theorem syncTimeFromTbs_time (tbs : Str) (st : FilterState)
    (h : tbs = [] ∨
      (List.isPrefixOf (lit "cdr:1,cd_min:") tbs = true ∧
        ∀ s : FilterState, (syncCustomDateRange s tbs).time = s.time) ∨
      (List.isPrefixOf (lit "cdr:1,cd_min:") tbs = false ∧
        timeFilters.find? (timeParamPred (replaceFirst (lit "qdr:") [] tbs)) = none)) :
    (syncTimeFromTbs tbs st).time = st.time := by
  unfold syncTimeFromTbs
  rcases h with h | ⟨h1, h2⟩ | ⟨h1, h2⟩
  · simp [h]
  · by_cases he : tbs = []
    · simp [he]
    · simp [he, h1, h2 st]
  · by_cases he : tbs = []
    · simp [he]
    · simp [he, h1, h2]

/-- C5 (counterexample): with `interfaceLang = tr` in memory, parsing an
address whose `hl` is the unrecognized `fr` does not keep the pre-parse
value — it forces the category to its default `auto`. -/
theorem C5_counterexample :
    (syncFiltersFromURL builtinSites true
        ⟨none, none, none, some (lit "fr"), none, lit "/search", []⟩
        ⟨lit "all", lit "tr", lit "auto", lit "all", lit "all"⟩).interfaceLang
      = lit "auto" ∧
    lit "auto" ≠ lit "tr" := by
  constructor
  · decide
  · decide

/-- C5 (amended): an absent or unrecognized `q`-fragment, `lr` or `tbs`
leaves the corresponding category at its pre-parse value, and an absent
`hl` or `gl` does too; but a present, unrecognized `hl` (resp. `gl`)
resets interfaceLang (resp. region) to the default `auto` instead of
keeping the pre-parse value. -/
theorem C5_sync_unrecognized (sites : List (Str × SiteData)) (isSearch : Bool)
    (p : Params) (st : FilterState) :
    (sites.find? (siteMatchPred (getP p.q)) = none →
      (syncFiltersFromURL sites isSearch p st).site = st.site) ∧
    ((getP p.lr = [] ∨
        (searchLangFilters.lookup (replaceFirst (lit "lang_") [] (getP p.lr))).isSome = false) →
      (syncFiltersFromURL sites isSearch p st).searchLang = st.searchLang) ∧
    ((getP p.tbs = [] ∨
        (List.isPrefixOf (lit "cdr:1,cd_min:") (getP p.tbs) = true ∧
          ∀ s : FilterState, (syncCustomDateRange s (getP p.tbs)).time = s.time) ∨
        (List.isPrefixOf (lit "cdr:1,cd_min:") (getP p.tbs) = false ∧
          timeFilters.find?
            (timeParamPred (replaceFirst (lit "qdr:") [] (getP p.tbs))) = none)) →
      (syncFiltersFromURL sites isSearch p st).time = st.time) ∧
    (getP p.hl = [] →
      (syncFiltersFromURL sites isSearch p st).interfaceLang = st.interfaceLang) ∧
    (getP p.hl ≠ [] →
      interfaceLangFilters.find? (hlPred (getP p.hl)) = none →
      (syncFiltersFromURL sites isSearch p st).interfaceLang = lit "auto") ∧
    (getP p.gl = [] →
      (syncFiltersFromURL sites isSearch p st).region = st.region) ∧
    (getP p.gl ≠ [] →
      regionFilters.find? (glPred (getP p.gl)) = none →
      (syncFiltersFromURL sites isSearch p st).region = lit "auto") := by
  unfold syncFiltersFromURL
  cases isSearch with
  | false =>
    rw [if_pos (by simp)]
    refine ⟨fun _ => ?_, fun _ => ?_, fun _ => ?_, fun h => ?_, fun h1 h2 => ?_,
      fun h => ?_, fun h1 h2 => ?_⟩
    · rw [(syncRegionFromGl_fields _ _).2.2.1, (syncInterfaceFromHl_fields _ _).2.2.1]
    · rw [(syncRegionFromGl_fields _ _).1, (syncInterfaceFromHl_fields _ _).1]
    · rw [(syncRegionFromGl_fields _ _).2.2.2, (syncInterfaceFromHl_fields _ _).2.2.2]
    · rw [(syncRegionFromGl_fields _ _).2.1, h, syncInterfaceFromHl_noop]
    · rw [(syncRegionFromGl_fields _ _).2.1, syncInterfaceFromHl_unrec _ _ h1 h2]
    · rw [h, syncRegionFromGl_noop, (syncInterfaceFromHl_fields _ _).2.1]
    · rw [syncRegionFromGl_unrec _ _ h1 h2]
  | true =>
    rw [if_neg (by simp)]
    refine ⟨fun h => ?_, fun h => ?_, fun h => ?_, fun h => ?_, fun h1 h2 => ?_,
      fun h => ?_, fun h1 h2 => ?_⟩
    · rw [(syncTimeFromTbs_fields _ _).2.2.2, (syncSearchLangFromLR_fields _ _).2.2.1,
        syncSiteFromQuery_noop _ _ _ h,
        (syncRegionFromGl_fields _ _).2.2.1, (syncInterfaceFromHl_fields _ _).2.2.1]
    · rw [(syncTimeFromTbs_fields _ _).1, syncSearchLangFromLR_noop _ _ h,
        (syncSiteFromQuery_fields _ _ _).1,
        (syncRegionFromGl_fields _ _).1, (syncInterfaceFromHl_fields _ _).1]
    · rw [syncTimeFromTbs_time _ _ h, (syncSearchLangFromLR_fields _ _).2.2.2,
        (syncSiteFromQuery_fields _ _ _).2.2.2,
        (syncRegionFromGl_fields _ _).2.2.2, (syncInterfaceFromHl_fields _ _).2.2.2]
    · rw [(syncTimeFromTbs_fields _ _).2.1, (syncSearchLangFromLR_fields _ _).1,
        (syncSiteFromQuery_fields _ _ _).2.1,
        (syncRegionFromGl_fields _ _).2.1, h, syncInterfaceFromHl_noop]
    · rw [(syncTimeFromTbs_fields _ _).2.1, (syncSearchLangFromLR_fields _ _).1,
        (syncSiteFromQuery_fields _ _ _).2.1,
        (syncRegionFromGl_fields _ _).2.1, syncInterfaceFromHl_unrec _ _ h1 h2]
    · rw [(syncTimeFromTbs_fields _ _).2.2.1, (syncSearchLangFromLR_fields _ _).2.1,
        (syncSiteFromQuery_fields _ _ _).2.2.1,
        h, syncRegionFromGl_noop, (syncInterfaceFromHl_fields _ _).2.1]
    · rw [(syncTimeFromTbs_fields _ _).2.2.1, (syncSearchLangFromLR_fields _ _).2.1,
        (syncSiteFromQuery_fields _ _ _).2.2.1,
        syncRegionFromGl_unrec _ _ h1 h2]

/-- C5 witness: the amended behaviour on an empty-parameter address. -/
theorem C5_witness :
    (syncFiltersFromURL builtinSites true noParams defaultState).interfaceLang
      = defaultState.interfaceLang :=
  (C5_sync_unrecognized builtinSites true noParams defaultState).2.2.2.1 (by decide)

/-! ## C6 — two-year detection -/

/-- C6: the ≈1.99-year explicit range sets the time filter to `2year`; a
1.0-year range leaves it unchanged; and in general the custom-range
detector sets `2year` exactly when the parsed span lies in [1.8, 2.2]
years (otherwise the time filter keeps its pre-parse value). -/
theorem C6_two_year_detection :
    (syncFiltersFromURL builtinSites true
        ⟨some (lit "q"), none, some (lit "cdr:1,cd_min:1/15/2023,cd_max:1/10/2025"),
         none, none, lit "/search", []⟩ defaultState).time = lit "2year" ∧
    (syncFiltersFromURL builtinSites true
        ⟨some (lit "q"), none, some (lit "cdr:1,cd_min:1/15/2023,cd_max:1/15/2024"),
         none, none, lit "/search", []⟩ defaultState).time = defaultState.time ∧
    ∀ (st : FilterState) (tbs : Str),
      ((syncCustomDateRange st tbs).time = lit "2year" ↔
        st.time = lit "2year" ∨
        ∃ d1 d2, searchDatePair tbs = some (d1, d2) ∧
          (9 : ℚ) / 5 ≤ yearsDiffQ (mdyToDays d1) (mdyToDays d2) ∧
          yearsDiffQ (mdyToDays d1) (mdyToDays d2) ≤ (11 : ℚ) / 5) := by
  refine ⟨by decide, by decide, ?_⟩
  intro st tbs
  unfold syncCustomDateRange
  cases hsd : searchDatePair tbs with
  | none => simp
  | some r =>
    obtain ⟨d1, d2⟩ := r
    by_cases hr : inTwoYearRange (mdyToDays d1) (mdyToDays d2) = true
    · simp only [hr, if_true, reduceIte, FilterState.set]
      constructor
      · intro _
        exact Or.inr ⟨d1, d2, rfl, (inTwoYearRange_iff _ _).mp hr⟩
      · intro _
        trivial
    · have hq := fun h => hr ((inTwoYearRange_iff _ _).mpr h)
      simp only [Bool.not_eq_true] at hr
      simp [hr, hq]
      exact fun h1 h2 => absurd ⟨h1, h2⟩ hq

/-! ## C1 — round-trip of outbound apply and the consistency check -/

/-- The FilterState invariant: every selected code is in the catalog
(for the site category, the neutral `all` or a catalog key). -/
def validState (st : FilterState) : Prop :=
  (searchLangFilters.lookup st.searchLang).isSome ∧
  (interfaceLangFilters.lookup st.interfaceLang).isSome ∧
  (regionFilters.lookup st.region).isSome ∧
  (st.site = lit "all" ∨ (builtinSites.lookup st.site).isSome) ∧
  (timeFilters.lookup st.time).isSome

instance (st : FilterState) : Decidable (validState st) := by
  unfold validState
  infer_instance

/-- A site fragment that is nonempty and has no whitespace at either end
(true of every built-in fragment), so appending it to a query and
trimming keeps it intact. -/
def goodQuery (sq : Str) : Prop :=
  sq ≠ [] ∧ isWS (sq.headD ' ') = false ∧ isWS (sq.getLastD ' ') = false

instance (sq : Str) : Decidable (goodQuery sq) := by
  unfold goodQuery
  infer_instance

theorem suffix_dropWhile {q : Char → Bool} {a : Char} {sq l : Str}
    (hp : q a = false) (h : (a :: sq) <:+ l) : (a :: sq) <:+ l.dropWhile q := by
  induction l with
  | nil => simp at h
  | cons c t ih =>
    rcases List.suffix_cons_iff.mp h with h1 | h2
    · rw [← h1, List.dropWhile_cons, hp]
      simp
    · rw [List.dropWhile_cons]
      cases hq : q c with
      | true => simpa using ih h2
      | false => simpa using h

theorem trimR_eq_self {l : Str} {c : Char} (h : l.getLast? = some c)
    (hc : isWS c = false) : trimR l = l := by
  have hl : l ≠ [] := by
    intro he
    subst he
    simp at h
  obtain ⟨ys, d, rfl⟩ : ∃ ys d, l = ys ++ [d] :=
    ⟨l.dropLast, l.getLast hl, (List.dropLast_append_getLast hl).symm⟩
  have hdc : d = c := by
    rw [List.getLast?_concat] at h
    exact Option.some_injective _ h
  subst hdc
  unfold trimR
  rw [List.reverse_append]
  simp [List.dropWhile_cons, hc]

theorem suffix_trimStr {sq : Str} (cq : Str) (hg : goodQuery sq) :
    sq <:+ trimStr (cq ++ ' ' :: sq) := by
  obtain ⟨hne, hh, hl⟩ := hg
  obtain ⟨a, sq', rfl⟩ : ∃ a t, sq = a :: t := by
    cases sq with
    | nil => exact absurd rfl hne
    | cons a t => exact ⟨_, _, rfl⟩
  have hha : isWS a = false := by simpa [List.headD] using hh
  have hsuf : (a :: sq') <:+ cq ++ ' ' :: a :: sq' := by
    have he : cq ++ ' ' :: a :: sq' = (cq ++ [' ']) ++ (a :: sq') := by simp
    rw [he]
    exact List.suffix_append _ _
  have h1 : (a :: sq') <:+ trimL (cq ++ ' ' :: a :: sq') := suffix_dropWhile hha hsuf
  have hlast : (trimL (cq ++ ' ' :: a :: sq')).getLast? = some ((a :: sq').getLastD ' ') := by
    obtain ⟨pre, hpre⟩ := h1
    rw [← hpre, List.getLast?_append_cons, List.getLastD_eq_getLast?]
    cases hgl : (a :: sq').getLast? with
    | none => simp at hgl
    | some x => simp
  unfold trimStr
  rw [trimR_eq_self hlast hl]
  exact h1

theorem includes_of_suffix {hay sq : Str} (h : sq <:+ hay) : includes hay sq = true := by
  unfold includes
  exact decide_eq_true h.isInfix

theorem isPrefixOf_append_self (a x : Str) : List.isPrefixOf a (a ++ x) = true :=
  List.isPrefixOf_iff_prefix.mpr (List.prefix_append _ _)

theorem builtin_lookup_goodQuery (k : Str) (d : SiteData)
    (h : builtinSites.lookup k = some d) : goodQuery d.query := by
  simp only [builtinSites, List.lookup] at h
  split at h
  · cases h; decide
  · split at h
    · cases h; decide
    · split at h
      · cases h; decide
      · split at h
        · cases h; decide
        · cases h

theorem il_lookup_nonauto (k : Str) (d : InterfaceOpt)
    (h : interfaceLangFilters.lookup k = some d) (hk : k ≠ lit "auto") :
    ∃ g, d.googleLang = some g := by
  simp only [interfaceLangFilters, List.lookup] at h
  split at h
  · rename_i hbeq
    exact absurd (by simpa using hbeq) hk
  · split at h
    · cases h; exact ⟨lit "tr", rfl⟩
    · split at h
      · cases h; exact ⟨lit "en", rfl⟩
      · cases h

theorem rg_lookup_nonauto (k : Str) (d : RegionOpt)
    (h : regionFilters.lookup k = some d) (hk : k ≠ lit "auto") :
    ∃ g, d.googleRegion = some g := by
  simp only [regionFilters, List.lookup] at h
  split at h
  · rename_i hbeq
    exact absurd (by simpa using hbeq) hk
  · split at h
    · cases h; exact ⟨lit "TR", rfl⟩
    · split at h
      · cases h; exact ⟨lit "US", rfl⟩
      · cases h

theorem timeOk_create (today : Int) (k : Str) (t : TimeOpt)
    (h : timeFilters.lookup k = some t) :
    timeOk t.param (createTimeFilterValue today t.param) = true := by
  simp only [timeFilters, List.lookup] at h
  split at h
  · cases h
    rw [createTimeFilterValue, if_neg (by decide)]
    decide
  · split at h
    · cases h
      rw [createTimeFilterValue, if_neg (by decide)]
      decide
    · split at h
      · cases h
        rw [createTimeFilterValue, if_neg (by decide)]
        decide
      · split at h
        · cases h
          rw [createTimeFilterValue, if_neg (by decide)]
          decide
        · split at h
          · cases h
            rw [createTimeFilterValue, if_neg (by decide)]
            decide
          · split at h
            · cases h
              rw [createTimeFilterValue, if_pos (by exact ⟨by decide, by decide⟩)]
              rw [timeOk, if_pos (by decide), if_pos (by decide)]
              simp only [List.append_assoc]
              exact isPrefixOf_append_self _ _
            · cases h

/-- C1: for every FilterState whose five values are catalog codes,
building the address from the state (`applyFilters`) from any starting
address and then running the consistency check (`checkCurrentFilters`)
on the result with the same state returns true. -/
theorem C1_roundtrip (p : Params) (today : Int) (st : FilterState)
    (h : validState st) :
    (applyFilters builtinSites today p st).bind
      (fun p' => checkCurrentFilters builtinSites p' st) = some true := by
  obtain ⟨hsl, hil, hrg, hsi, htm⟩ := h
  have HSITE : st.site = lit "all" ∨
      ∃ d, builtinSites.lookup st.site = some d ∧
        (∀ cq : Str, includes (trimStr (cq ++ ' ' :: d.query)) d.query = true) ∧
        st.site ≠ lit "all" := by
    rcases hsi with hA | hs
    · exact Or.inl hA
    · obtain ⟨d, hd⟩ := Option.isSome_iff_exists.mp hs
      refine Or.inr ⟨d, hd, fun cq =>
        includes_of_suffix (suffix_trimStr cq (builtin_lookup_goodQuery _ _ hd)), ?_⟩
      intro he
      rw [he, show List.lookup (lit "all") builtinSites = none by decide] at hd
      exact Option.noConfusion hd
  have HTIME : st.time = lit "all" ∨
      ∃ t, timeFilters.lookup st.time = some t ∧
        timeOk t.param (createTimeFilterValue today t.param) = true ∧
        st.time ≠ lit "all" := by
    by_cases htA : st.time = lit "all"
    · exact Or.inl htA
    · obtain ⟨t, ht⟩ := Option.isSome_iff_exists.mp htm
      exact Or.inr ⟨t, ht, timeOk_create today _ _ ht, htA⟩
  have HIL : st.interfaceLang = lit "auto" ∨
      ∃ d g, interfaceLangFilters.lookup st.interfaceLang = some d ∧
        d.googleLang = some g ∧ st.interfaceLang ≠ lit "auto" := by
    by_cases hilA : st.interfaceLang = lit "auto"
    · exact Or.inl hilA
    · obtain ⟨d, hd⟩ := Option.isSome_iff_exists.mp hil
      obtain ⟨g, hg⟩ := il_lookup_nonauto _ _ hd hilA
      exact Or.inr ⟨d, g, hd, hg, hilA⟩
  have HRG : st.region = lit "auto" ∨
      ∃ d g, regionFilters.lookup st.region = some d ∧
        d.googleRegion = some g ∧ st.region ≠ lit "auto" := by
    by_cases hrgA : st.region = lit "auto"
    · exact Or.inl hrgA
    · obtain ⟨d, hd⟩ := Option.isSome_iff_exists.mp hrg
      obtain ⟨g, hg⟩ := rg_lookup_nonauto _ _ hd hrgA
      exact Or.inr ⟨d, g, hd, hg, hrgA⟩
  have HSL : st.searchLang = lit "all" ∨ st.searchLang ≠ lit "all" := em _
  rcases HSITE with hA | ⟨d, hd, hinc, hA⟩ <;>
    rcases HTIME with htA | ⟨t, ht, htok, htA⟩ <;>
      rcases HIL with hilA | ⟨dil, gil, hdil, hgil, hilA⟩ <;>
        rcases HRG with hrgA | ⟨drg, grg, hdrg, hgrg, hrgA⟩ <;>
          rcases HSL with hslA | hslA <;>
            simp [applyFilters, checkCurrentFilters, getP, *]

/-- C1 witness: the round-trip at a concrete fully-non-default state and a
concrete starting address. -/
theorem C1_witness :
    (applyFilters builtinSites 20000
        ⟨some (lit "foo site:old.com"), some (lit "junk"), none, some (lit "xx"), none,
         lit "/search", []⟩
        ⟨lit "tr", lit "en", lit "us", lit "github", lit "2year"⟩).bind
      (fun p' => checkCurrentFilters builtinSites p'
        ⟨lit "tr", lit "en", lit "us", lit "github", lit "2year"⟩) = some true :=
  C1_roundtrip
    ⟨some (lit "foo site:old.com"), some (lit "junk"), none, some (lit "xx"), none,
     lit "/search", []⟩
    20000
    ⟨lit "tr", lit "en", lit "us", lit "github", lit "2year"⟩
    (by decide)

end GSF
